import Mathlib

/-!
Verification of the outline-to-deck synthesis engine (src/app.py).

The development shallowly embeds the four core functions of the source:
`coerce_outline`, `choose_layout`, `add_slides_from_outline` and
`extract_images_from_presentation`.  Python strings are Lean `String`s
(slicing and stripping are modelled character-wise), JSON values decoded by
the standard json library are modelled by the inductive type `JValue`
(numbers restricted to integers; no claim depends on numerics), and the
library call `json.loads` itself is an uninterpreted parameter
`parse : String -> Option JValue` (`none` models a raised exception).
Python code that can raise inside a try block is modelled in the `Option`
monad; `none` models the raised exception reaching the except clause.
-/

/-- Python slice `s[:n]` on a string, character-wise. -/
def pyTake (n : Nat) (s : String) : String :=
  String.mk (s.toList.take n)

/-- Characters treated as whitespace by Python `str.strip` (ASCII subset). -/
def isPySpace (c : Char) : Bool :=
  c = ' ' || c = '\t' || c = '\n' || c = '\r' || c = Char.ofNat 11 || c = Char.ofNat 12

/-- Python `str.strip()`: drop leading and trailing whitespace. -/
def pyStrip (s : String) : String :=
  String.mk (((s.toList.dropWhile isPySpace).reverse.dropWhile isPySpace).reverse)

/-- ASCII lower-casing of one character, modelling Python `str.lower`. -/
def lowerChar (c : Char) : Char :=
  if 'A' ≤ c && c ≤ 'Z' then Char.ofNat (c.toNat + 32) else c

/-- Python `str.lower()` (ASCII; the layout names in the claims are ASCII). -/
def pyLower (s : String) : String :=
  String.mk (s.toList.map lowerChar)

/-- Whether `sub` occurs at the head of `hay`. -/
def headMatches : List Char → List Char → Bool
  | [], _ => true
  | _ :: _, [] => false
  | a :: as, b :: bs => a = b && headMatches as bs

/-- Whether `sub` occurs contiguously inside `hay`: Python `sub in hay`. -/
def hasSubChars (sub : List Char) : List Char → Bool
  | [] => sub.isEmpty
  | c :: rest => headMatches sub (c :: rest) || hasSubChars sub rest

/-- Python `sub in s` on strings. -/
def strHasSub (sub s : String) : Bool :=
  hasSubChars sub.toList s.toList

/-- Index of the first occurrence of `c`, Python `str.index` (none = ValueError). -/
def firstIdxOf (c : Char) : List Char → Option Nat
  | [] => none
  | a :: rest => if a = c then some 0 else (firstIdxOf c rest).map (· + 1)

/-- Index of the last occurrence of `c`, Python `str.rindex` (none = ValueError). -/
def lastIdxOf (c : Char) (l : List Char) : Option Nat :=
  (firstIdxOf c l.reverse).map (fun i => l.length - 1 - i)

/-- The opening brace character. -/
def braceOpen : Char := Char.ofNat 123

/-- The closing brace character. -/
def braceClose : Char := Char.ofNat 125

/-- JSON values as decoded by the standard json library, with numbers
restricted to integers (no claim in this development depends on numeric
values).  Objects are the association list of fields in document order. -/
inductive JValue where
  | jnull
  | jbool (b : Bool)
  | jnum (n : Int)
  | jstr (s : String)
  | jarr (items : List JValue)
  | jobj (fields : List (String × JValue))

/-- The single-quote character used by Python repr of strings. -/
def pyQuote : String := String.mk [Char.ofNat 39]

mutual

/-- Python `repr` of a decoded JSON value (strings single-quoted, no escape
handling: the claims never inspect repr output of strings with quotes). -/
def pyRepr : JValue → String
  | .jnull => "None"
  | .jbool true => "True"
  | .jbool false => "False"
  | .jnum n => toString n
  | .jstr s => pyQuote ++ s ++ pyQuote
  | .jarr items => "[" ++ pyReprSeq items ++ "]"
  | .jobj fields => "\x7b" ++ pyReprObj fields ++ "\x7d"

/-- Comma-joined reprs of a list of values. -/
def pyReprSeq : List JValue → String
  | [] => ""
  | [v] => pyRepr v
  | v :: w :: rest => pyRepr v ++ ", " ++ pyReprSeq (w :: rest)

/-- Comma-joined `key: value` reprs of an object body. -/
def pyReprObj : List (String × JValue) → String
  | [] => ""
  | [kv] => pyQuote ++ kv.1 ++ pyQuote ++ ": " ++ pyRepr kv.2
  | kv :: kw :: rest => pyQuote ++ kv.1 ++ pyQuote ++ ": " ++ pyRepr kv.2 ++ ", " ++ pyReprObj (kw :: rest)

end

/-- Python `str` of a decoded JSON value: strings pass through unquoted,
containers print via repr of their elements. -/
def pyStr : JValue → String
  | .jstr s => s
  | .jnull => "None"
  | .jbool true => "True"
  | .jbool false => "False"
  | .jnum n => toString n
  | .jarr items => "[" ++ pyReprSeq items ++ "]"
  | .jobj fields => "\x7b" ++ pyReprObj fields ++ "\x7d"

/-- Python `dict.get key dflt` on a decoded object: last binding wins, as in
a Python dict built by json decoding. -/
def dictGet (fields : List (String × JValue)) (key : String) (dflt : JValue) : JValue :=
  match fields.reverse.find? (fun kv => kv.1 = key) with
  | some kv => kv.2
  | none => dflt

/-- Python truthiness of a decoded JSON value. -/
def pyTruthy : JValue → Bool
  | .jnull => false
  | .jbool b => b
  | .jnum n => n ≠ 0
  | .jstr s => !s.toList.isEmpty
  | .jarr items => !items.isEmpty
  | .jobj fields => !fields.isEmpty

/-- Python `x or y`. -/
def pyOr (v dflt : JValue) : JValue :=
  if pyTruthy v then v else dflt

/-- Python iteration over a decoded JSON value: lists yield their items,
strings their characters, dicts their keys; other values raise TypeError
(modelled as `none`). -/
def pyIter : JValue → Option (List JValue)
  | .jarr items => some items
  | .jstr s => some (s.toList.map (fun c => .jstr (String.mk [c])))
  | .jobj fields => some (fields.map (fun kv => .jstr kv.1))
  | _ => none

/-- A normalized slide produced by the outline normalizer (app.py dict with
keys title, bullets, notes). -/
structure SlideSpec where
  title : String
  bullets : List String
  notes : String
deriving DecidableEq

/-- The brace-located candidate JSON text: app.py lines 216-217,
`text[text.index("\x7b") : text.rindex("\x7d") + 1]`; `none` models the
ValueError when either brace is absent. -/
def locateBraces (text : String) : Option String :=
  match firstIdxOf braceOpen text.toList, lastIdxOf braceClose text.toList with
  | some s, some e => some (String.mk ((text.toList.drop s).take (e + 1 - s)))
  | _, _ => none

/-- Locating the braces and decoding the enclosed text with the supplied
json decoder (app.py lines 216-218). -/
def locateAndParse (parse : String → Option JValue) (text : String) : Option JValue :=
  (locateBraces text).bind parse

/-- One iteration of the normalization loop of coerce_outline (app.py lines
221-226).  `none` models an exception (a non-dict entry, or a bullets value
that is not iterable) escaping to the except clause; the title and notes
computations cannot raise. -/
def normSlide (with_notes : Bool) (s : JValue) : Option SlideSpec :=
  match s with
  | .jobj fields =>
    match pyIter (pyOr (dictGet fields "bullets" .jnull) (.jarr [])) with
    | none => none
    | some bulletItems =>
      some { title := pyTake 255 (pyStr (dictGet fields "title" (.jstr "")))
             bullets := (bulletItems.map (fun b => pyTake 255 (pyStr b))).take 10
             notes := if with_notes then pyTake 2000 (pyStr (dictGet fields "notes" (.jstr ""))) else "" }
  | _ => none

/-- The for loop of coerce_outline (app.py lines 221-226) accumulating
`norm`: an exception at any entry discards the whole accumulation (the
except clause takes over), modelled by `none`. -/
def normLoop (with_notes : Bool) : List JValue → Option (List SlideSpec)
  | [] => some []
  | v :: rest =>
    match normSlide with_notes v with
    | none => none
    | some s =>
      match normLoop with_notes rest with
      | none => none
      | some r => some (s :: r)

/-- The try block of coerce_outline (app.py lines 215-226) up to the list
`norm`: locate and decode the braced JSON, read the slides value (a non-dict
top level raises AttributeError), iterate it, and normalize each entry.
`none` models any raised exception. -/
def coerceTry (parse : String → Option JValue) (text : String) (with_notes : Bool) :
    Option (List SlideSpec) :=
  match locateAndParse parse text with
  | some (.jobj fields) =>
    match pyIter (dictGet fields "slides" (.jarr [])) with
    | none => none
    | some slidesList => normLoop with_notes slidesList
  | some _ => none
  | none => none

/-- coerce_outline (app.py lines 214-233): the slides list of the returned
outline dict.  On any exception in the try block the except clause returns
the single fallback slide built from the raw input text. -/
def coerce_outline (parse : String → Option JValue) (text : String) (with_notes : Bool) :
    List SlideSpec :=
  match coerceTry parse text with_notes with
  | some norm =>
    let norm := if norm.length < 1 then [{ title := "Overview", bullets := ["Summary"], notes := "" }] else norm
    if norm.length > 25 then norm.take 25 else norm
  | none =>
    [{ title := "Overview", bullets := [pyTake 120 text],
       notes := if with_notes then pyTake 500 text else "" }]

/-- A placeholder inherited by a slide from its layout.  `phType` is the
numeric `placeholder_format.type` used by app.py (2 = body, 18 = picture);
`hasTextFrame` models the `has_text_frame` attribute. -/
structure Placeholder where
  phType : Nat
  hasTextFrame : Bool
deriving DecidableEq

/-- A slide layout of the template: its name and the placeholders a slide
added from it inherits.  `hasTitle` models whether `slide.shapes.title` is
non-None for slides created from this layout. -/
structure Layout where
  name : String
  hasTitle : Bool
  placeholders : List Placeholder
deriving DecidableEq

/-- A paragraph written into a text frame.  app.py sets only the text and
the outline level; `fontSize` and `color` record any explicitly applied
character formatting (the source never applies any, so they stay `none`). -/
structure Paragraph where
  text : String
  level : Nat
  fontSize : Option Nat
  color : Option (Nat × Nat × Nat)
deriving DecidableEq

/-- The observable result of assembling one slide.  `pictureIdx` is the
index into the image pool of the picture placed on the slide, if any;
`textBox` records paragraphs written into a synthesized free text box (no
code path of app.py creates one, so it stays `none`). -/
structure BuiltSlide where
  layout : Layout
  title : Option String
  body : Option (List Paragraph)
  textBox : Option (List Paragraph)
  pictureIdx : Option Nat
  pictureInPlaceholder : Bool
  notes : Option String
deriving DecidableEq

/-- The idx = 0 predicate of choose_layout (app.py lines 180-183):
lowercased name contains "title" but not "content". -/
def isTitleOnlyName (l : Layout) : Bool :=
  strHasSub "title" (pyLower l.name) && !strHasSub "content" (pyLower l.name)

/-- The idx > 0 predicate of choose_layout (app.py lines 185-188):
lowercased name contains "title" and also "content" or "text". -/
def isTitleContentName (l : Layout) : Bool :=
  strHasSub "title" (pyLower l.name) &&
    (strHasSub "content" (pyLower l.name) || strHasSub "text" (pyLower l.name))

/-- choose_layout (app.py lines 176-189).  The result is `none` exactly when
the function raises: its empty-list guard returns `layouts[0]`, which is an
IndexError on the empty list. -/
def choose_layout (layouts : List Layout) (idx : Nat) : Option Layout :=
  if layouts.length = 0 then
    layouts.get? 0
  else if idx = 0 then
    match layouts.find? isTitleOnlyName with
    | some l => some l
    | none => layouts.get? 0
  else
    match layouts.find? isTitleContentName with
    | some l => some l
    | none => layouts.get? (idx % layouts.length)

/-- Junk layout used only to totalize the unreachable `none` branch of
choose_layout inside add_slides_from_outline, whose empty-layouts guard has
already returned. -/
def emptyFallbackLayout : Layout :=
  { name := "", hasTitle := false, placeholders := [] }

/-- The for loop over picture placeholders (app.py lines 150-159): try
`insert_picture` on each type-18 placeholder until one succeeds, consuming
one oracle consultation per attempt; returns whether a placement succeeded
and the advanced attempt counter.  `ok` is the success oracle for the
picture-insertion library calls, consulted on a global attempt counter. -/
def tryPicPlaceholders (ok : Nat → Bool) : List Placeholder → Nat → Bool × Nat
  | [], att => (false, att)
  | _ :: rest, att => if ok att then (true, att + 1) else tryPicPlaceholders ok rest (att + 1)

/-- The image-placement step for one slide (app.py lines 148-168): when the
pool is non-empty, try the type-18 placeholders in order, then fall back to
`add_picture` at a fixed anchored position; the image used is
`images[img_ix % len images]` and `img_ix` advances only on success.
Returns ((placed image index, placed into a placeholder), new img_ix, new
attempt counter). -/
def placePicture (ok : Nat → Bool) (images : List (List Nat)) (layout : Layout)
    (imgIx att : Nat) : (Option Nat × Bool) × Nat × Nat :=
  if images.isEmpty then ((none, false), imgIx, att)
  else
    let phs := layout.placeholders.filter (fun p => p.phType = 18)
    let res := tryPicPlaceholders ok phs att
    if res.1 then ((some (imgIx % images.length), true), imgIx + 1, res.2)
    else if ok res.2 then ((some (imgIx % images.length), false), imgIx + 1, res.2 + 1)
    else ((none, false), imgIx, res.2 + 1)

/-- Assembly of one slide (app.py lines 124-174) from its chosen layout:
title binding truncated to 255 characters, body binding writing one
stripped level-0 paragraph per bullet into the first type-2 placeholder
when it has a text frame, image placement, and notes binding (the notes
try block is modelled as succeeding).  Returns the slide and the advanced
image and attempt counters. -/
def buildSlide (ok : Nat → Bool) (images : List (List Nat)) (layout : Layout)
    (sd : SlideSpec) (imgIx att : Nat) : BuiltSlide × Nat × Nat :=
  let title := if layout.hasTitle then some (pyTake 255 sd.title) else none
  let body :=
    match layout.placeholders.find? (fun p => p.phType = 2) with
    | some ph =>
      if ph.hasTextFrame then
        some (sd.bullets.map (fun b => { text := pyStrip b, level := 0, fontSize := none, color := none }))
      else none
    | none => none
  let pres := placePicture ok images layout imgIx att
  let notes := if sd.notes = "" then none else some sd.notes
  ({ layout := layout, title := title, body := body, textBox := none,
     pictureIdx := pres.1.1, pictureInPlaceholder := pres.1.2, notes := notes },
   pres.2.1, pres.2.2)

/-- The enumerate loop of add_slides_from_outline (app.py lines 123-174):
build one slide per outline entry at successive indices, threading the
image counter `imgIx` and the oracle attempt counter `att`. -/
def addSlidesGo (ok : Nat → Bool) (layouts : List Layout) (images : List (List Nat)) :
    List SlideSpec → Nat → Nat → Nat → List BuiltSlide
  | [], _, _, _ => []
  | sd :: rest, idx, imgIx, att =>
    let layout := (choose_layout layouts idx).getD emptyFallbackLayout
    let built := buildSlide ok images layout sd imgIx att
    built.1 :: addSlidesGo ok layouts images rest (idx + 1) built.2.1 built.2.2

/-- add_slides_from_outline (app.py lines 118-174): the list of slides
appended to the deck.  The Python function raises no exception and reports
no error; the `Except` codomain makes that observable: the result is always
`Except.ok`, and when the template has no layouts the guard at line 120
silently returns with nothing appended. -/
def add_slides_from_outline (ok : Nat → Bool) (layouts : List Layout)
    (images : List (List Nat)) (outline : List SlideSpec) : Except String (List BuiltSlide) :=
  if layouts.isEmpty then Except.ok []
  else Except.ok (addSlidesGo ok layouts images outline 0 0 0)

/-- A part of the opened document package: its blob, when the part object
has a `blob` attribute, and the targets of its relationships in order.  The
tree shape is enough for the claims; cycles of a real package are not
representable and not needed. -/
inductive PPart where
  | mk (blob : Option (List Nat)) (rels : List PPart)

/-- The blob of a part, when the part exposes one. -/
def PPart.blob : PPart → Option (List Nat)
  | .mk b _ => b

/-- The relationship targets of a part, in relationship order. -/
def PPart.rels : PPart → List PPart
  | .mk _ r => r

/-- extract_images_from_presentation (app.py lines 103-116): iterate the
relationships of the presentation part only, collecting the blob of every
direct target that has one, in relationship order.  The surrounding try
blocks mean the function always returns a list. -/
def extract_images_from_presentation (root : PPart) : List (List Nat) :=
  root.rels.filterMap PPart.blob

mutual

/-- Modelled from the spec: the image harvest the spec describes, walking
the relationship graph of the package including nested parts and collecting
every reachable blob in discovery (depth-first) order.  app.py contains no
such walk; this definition exists to compare the spec wording with
extract_images_from_presentation. -/
def harvestImagesDeep : PPart → List (List Nat)
  | .mk _ rels => harvestImagesList rels

/-- Depth-first blob collection over a list of relationship targets. -/
def harvestImagesList : List PPart → List (List Nat)
  | [] => []
  | t :: rest =>
    (match PPart.blob t with | some b => [b] | none => []) ++
      harvestImagesDeep t ++ harvestImagesList rest

end

/-- A minimal slide specification used by concrete evaluations. -/
def demoSpec : SlideSpec := { title := "T", bullets := ["x"], notes := "" }

/-- Decoded model output for the C2 counterexample: one slide entry carrying
nine non-blank bullet strings. -/
def c2Obj : JValue :=
  .jobj [("slides", .jarr [.jobj [("title", .jstr "T"),
    ("bullets", .jarr [.jstr "b1", .jstr "b2", .jstr "b3", .jstr "b4", .jstr "b5",
      .jstr "b6", .jstr "b7", .jstr "b8", .jstr "b9"])]])]

/-- A json decoder returning the C2 counterexample object. -/
def c2Parse : String → Option JValue := fun _ => some c2Obj

/-- Layout used by the C3 witness: no placeholders, pictures go through the
fixed-position fallback. -/
def c3Layout : Layout := { name := "Plain", hasTitle := false, placeholders := [] }

/-- Layout list for the C3 witness. -/
def c3Layouts : List Layout := [c3Layout]

/-- Two-image pool for the C3 witness. -/
def c3Images : List (List Nat) := [[1], [2]]

/-- Three-slide outline for the C3 witness. -/
def c3Outline : List SlideSpec := [demoSpec, demoSpec, demoSpec]

/-- The slides the C3 witness run assembles. -/
def c3Slides : List BuiltSlide := addSlidesGo (fun _ => true) c3Layouts c3Images c3Outline 0 0 0

/-- First layout of the C4 counterexample template: its lowercased name
contains "title" and "text", so the idx > 0 scan of choose_layout stops
here. -/
def c4First : Layout := { name := "Main Title text", hasTitle := false, placeholders := [] }

/-- Second layout of the C4 counterexample template, literally named
"Title and Content". -/
def c4Second : Layout := { name := "Title and Content", hasTitle := false, placeholders := [] }

/-- Layout list of the C4 counterexample template. -/
def c4Layouts : List Layout := [c4First, c4Second]

/-- Two-slide outline for the C4 runs. -/
def c4Outline : List SlideSpec := [demoSpec, demoSpec]

/-- The slides the C4 witness run assembles. -/
def c4Slides : List BuiltSlide := addSlidesGo (fun _ => true) c4Layouts [] c4Outline 0 0 0

/-- Layout for the C5 counterexample: a title and one body placeholder with
a text frame. -/
def c5Layout : Layout := { name := "Body", hasTitle := true, placeholders := [{ phType := 2, hasTextFrame := true }] }

/-- One-slide outline for the C5 counterexample, with a padded bullet. -/
def c5Outline : List SlideSpec := [{ title := "T", bullets := ["  hello "], notes := "" }]

/-- The single paragraph the C5 counterexample run writes. -/
def c5Para : Paragraph := { text := "hello", level := 0, fontSize := none, color := none }

/-- The slide the C5 counterexample run assembles. -/
def c5Built : BuiltSlide :=
  { layout := c5Layout, title := some "T", body := some [c5Para], textBox := none,
    pictureIdx := none, pictureInPlaceholder := false, notes := none }

/-- Layout for the C6 counterexample: no placeholders at all. -/
def c6Layout : Layout := { name := "Blank", hasTitle := false, placeholders := [] }

/-- The slide the C6 counterexample run assembles: bullets vanish. -/
def c6Built : BuiltSlide :=
  { layout := c6Layout, title := none, body := none, textBox := none,
    pictureIdx := none, pictureInPlaceholder := false, notes := none }

/-- Package for the C9 counterexample: the only image blob hangs off a
nested part (presentation part -> slide part -> image part), not off the
presentation part itself. -/
def c9Root : PPart := .mk none [.mk none [.mk (some [1, 2, 3]) []]]

/-- Package with one directly related image part: used by the C9 witness. -/
def c9Direct : PPart := .mk none [.mk (some [5]) []]

/-- The slide at index 2 of the C3 witness run: the third slide receives
`images[2 mod 2]`, the pool image of index 0. -/
def c3SlideTwo : BuiltSlide :=
  { layout := c3Layout, title := none, body := none, textBox := none,
    pictureIdx := some 0, pictureInPlaceholder := false, notes := none }

/-- The slide at index 1 of the C4 witness run, bound to the first layout
matching the title-and-content-or-text predicate. -/
def c4BuiltSlide : BuiltSlide :=
  { layout := c4First, title := none, body := none, textBox := none,
    pictureIdx := none, pictureInPlaceholder := false, notes := none }


theorem normSlide_bullets_le (wn : Bool) (v : JValue) (s : SlideSpec)
    (h : normSlide wn v = some s) : s.bullets.length ≤ 10 := by
  unfold normSlide at h
  split at h
  · split at h
    · exact Option.noConfusion h
    · have h' := Option.some.inj h
      subst h'
      exact List.length_take_le 10 _
  · exact Option.noConfusion h

theorem normLoop_bullets_le (wn : Bool) :
    ∀ (l : List JValue) (r : List SlideSpec), normLoop wn l = some r →
      ∀ s ∈ r, s.bullets.length ≤ 10 := by
  intro l
  induction l with
  | nil =>
    intro r h s hs
    unfold normLoop at h
    have h' := Option.some.inj h
    subst h'
    exact absurd hs (List.not_mem_nil s)
  | cons v rest ih =>
    intro r h s hs
    unfold normLoop at h
    cases hv : normSlide wn v with
    | none => rw [hv] at h; exact Option.noConfusion h
    | some s0 =>
      rw [hv] at h
      cases hr : normLoop wn rest with
      | none => rw [hr] at h; exact Option.noConfusion h
      | some r0 =>
        rw [hr] at h
        have h' := Option.some.inj h
        subst h'
        rcases List.mem_cons.mp hs with h1 | h2
        · subst h1; exact normSlide_bullets_le wn v s hv
        · exact ih r0 hr s h2

theorem coerceTry_bullets (parse : String → Option JValue) (text : String) (wn : Bool)
    (norm : List SlideSpec) (h : coerceTry parse text wn = some norm) :
    ∀ s ∈ norm, s.bullets.length ≤ 10 := by
  unfold coerceTry at h
  split at h
  · split at h
    · exact Option.noConfusion h
    · exact normLoop_bullets_le wn _ norm h
  · exact Option.noConfusion h
  · exact Option.noConfusion h

/-- C1: for every model-returned text and every value of the with_notes
flag, coerce_outline returns an outline of at least 1 and at most 25
slides; the function is total (the Python never lets an exception escape:
the except clause returns the fallback slide). -/
theorem C1_coerce_outline_bounds (parse : String → Option JValue) (text : String) (wn : Bool) :
    1 ≤ (coerce_outline parse text wn).length ∧ (coerce_outline parse text wn).length ≤ 25 := by
  unfold coerce_outline
  cases coerceTry parse text wn with
  | none => simp
  | some norm =>
    by_cases h1 : norm.length < 1
    · simp [h1]
    · by_cases h2 : norm.length > 25
      · simp only [if_neg h1, if_pos h2, List.length_take]
        omega
      · simp only [if_neg h1, if_neg h2]
        omega

/-- C7: when locating and decoding the brace-enclosed JSON fails, the
except clause of coerce_outline returns exactly one fallback slide whose
single bullet is the 120-character prefix of the original raw text (and
whose notes are its 500-character prefix when notes were requested), never
zero slides. -/
theorem C7_parse_failure_single_fallback (parse : String → Option JValue)
    (text : String) (wn : Bool) (h : locateAndParse parse text = none) :
    coerce_outline parse text wn =
      [{ title := "Overview", bullets := [pyTake 120 text],
         notes := if wn then pyTake 500 text else "" }] := by
  have hct : coerceTry parse text wn = none := by
    unfold coerceTry
    rw [h]
  unfold coerce_outline
  rw [hct]

/-- C7 witness: a concrete text with no braces takes the fallback path. -/
theorem C7_witness :
    locateAndParse (fun _ => none) "plain text" = none ∧
    coerce_outline (fun _ => none) "plain text" true =
      [{ title := "Overview", bullets := [pyTake 120 "plain text"],
         notes := if true then pyTake 500 "plain text" else "" }] :=
  ⟨rfl, C7_parse_failure_single_fallback (fun _ => none) "plain text" true rfl⟩

/-- C2 counterexample: a successfully decoded model output carrying nine
non-blank bullets yields a slide with nine bullets, so the produced
SlideSpecs do not satisfy a bullet cap of 8 (the code caps at 10). -/
theorem C2_counterexample :
    ∃ s ∈ coerce_outline c2Parse "\x7b\x7d" false, 8 < s.bullets.length := by
  decide

/-- C2 amended: bullets are the stringified entries each truncated to 255
characters and capped at 10 (blank entries are kept, not dropped), so every
slide produced by coerce_outline has at most 10 bullets. -/
theorem C2_bullets_capped_at_ten (parse : String → Option JValue) (text : String)
    (wn : Bool) (s : SlideSpec) (h : s ∈ coerce_outline parse text wn) :
    s.bullets.length ≤ 10 := by
  unfold coerce_outline at h
  cases hc : coerceTry parse text wn with
  | none =>
    rw [hc] at h
    simp only [List.mem_singleton] at h
    subst h
    simp
  | some norm =>
    rw [hc] at h
    have hnorm := coerceTry_bullets parse text wn norm hc
    by_cases h1 : norm.length < 1
    · simp only [if_pos h1, List.length_singleton] at h
      by_cases h2 : (1 : Nat) > 25
      · omega
      · simp only [if_neg h2, List.mem_singleton] at h
        subst h
        simp
    · simp only [if_neg h1] at h
      by_cases h2 : norm.length > 25
      · simp only [if_pos h2] at h
        exact hnorm s (List.take_subset 25 norm h)
      · simp only [if_neg h2] at h
        exact hnorm s h

/-- C2 witness: the amended bound applied to a concrete fallback slide. -/
theorem C2_bullets_capped_at_ten_witness :
    ({ title := "Overview", bullets := ["t"], notes := "" } : SlideSpec) ∈
      coerce_outline (fun _ => none) "t" false ∧
    ({ title := "Overview", bullets := ["t"], notes := "" } : SlideSpec).bullets.length ≤ 10 :=
  ⟨by decide, C2_bullets_capped_at_ten (fun _ => none) "t" false _ (by decide)⟩

theorem buildSlide_layout (ok : Nat → Bool) (images : List (List Nat)) (layout : Layout)
    (sd : SlideSpec) (imgIx att : Nat) :
    (buildSlide ok images layout sd imgIx att).1.layout = layout := rfl

theorem buildSlide_textBox (ok : Nat → Bool) (images : List (List Nat)) (layout : Layout)
    (sd : SlideSpec) (imgIx att : Nat) :
    (buildSlide ok images layout sd imgIx att).1.textBox = none := rfl

theorem buildSlide_pictureIdx (ok : Nat → Bool) (images : List (List Nat)) (layout : Layout)
    (sd : SlideSpec) (imgIx att : Nat) :
    (buildSlide ok images layout sd imgIx att).1.pictureIdx =
      (placePicture ok images layout imgIx att).1.1 := rfl

theorem buildSlide_imgOut (ok : Nat → Bool) (images : List (List Nat)) (layout : Layout)
    (sd : SlideSpec) (imgIx att : Nat) :
    (buildSlide ok images layout sd imgIx att).2.1 =
      (placePicture ok images layout imgIx att).2.1 := rfl

theorem buildSlide_body (ok : Nat → Bool) (images : List (List Nat)) (layout : Layout)
    (sd : SlideSpec) (imgIx att : Nat) :
    (buildSlide ok images layout sd imgIx att).1.body =
      (match layout.placeholders.find? (fun p => p.phType = 2) with
       | some ph =>
         if ph.hasTextFrame then
           some (sd.bullets.map (fun b =>
             { text := pyStrip b, level := 0, fontSize := none, color := none }))
         else none
       | none => none) := rfl

theorem placePicture_counter (ok : Nat → Bool) (images : List (List Nat)) (layout : Layout)
    (imgIx att : Nat) :
    (placePicture ok images layout imgIx att).2.1 =
      if ((placePicture ok images layout imgIx att).1.1).isSome then imgIx + 1 else imgIx := by
  unfold placePicture
  by_cases he : images.isEmpty
  · simp [he]
  · simp only [if_neg he]
    by_cases h1 : (tryPicPlaceholders ok (layout.placeholders.filter fun p => p.phType = 18) att).1
    · simp [h1]
    · by_cases h2 : ok (tryPicPlaceholders ok (layout.placeholders.filter fun p => p.phType = 18) att).2
      · simp [h1, h2]
      · simp [h1, h2]

theorem placePicture_allOk (ok : Nat → Bool) (images : List (List Nat)) (layout : Layout)
    (imgIx att : Nat) (h1 : images ≠ []) (h2 : ∀ n, ok n = true) :
    (placePicture ok images layout imgIx att).1.1 = some (imgIx % images.length) ∧
    (placePicture ok images layout imgIx att).2.1 = imgIx + 1 := by
  have he : images.isEmpty = false := by
    cases images with
    | nil => exact absurd rfl h1
    | cons a l => rfl
  unfold placePicture
  rw [he]
  cases hp : layout.placeholders.filter (fun p => p.phType = 18) with
  | nil => simp [tryPicPlaceholders, h2 att]
  | cons p rest => simp [tryPicPlaceholders, h2 att]

theorem choose_layout_mem (layouts : List Layout) (idx : Nat) (h : layouts ≠ []) :
    ∃ l ∈ layouts, choose_layout layouts idx = some l := by
  have hlen : ¬ layouts.length = 0 := by
    simpa [List.length_eq_zero] using h
  unfold choose_layout
  rw [if_neg hlen]
  by_cases h0 : idx = 0
  · rw [if_pos h0]
    cases hf : layouts.find? isTitleOnlyName with
    | some l => exact ⟨l, List.mem_of_find?_eq_some hf, rfl⟩
    | none =>
      cases layouts with
      | nil => exact absurd rfl h
      | cons a rest => exact ⟨a, List.mem_cons_self a rest, rfl⟩
  · rw [if_neg h0]
    cases hf : layouts.find? isTitleContentName with
    | some l => exact ⟨l, List.mem_of_find?_eq_some hf, rfl⟩
    | none =>
      have hlt : idx % layouts.length < layouts.length :=
        Nat.mod_lt _ (Nat.pos_of_ne_zero hlen)
      exact ⟨layouts.get ⟨idx % layouts.length, hlt⟩, List.get_mem layouts _ hlt,
        List.get?_eq_get hlt⟩

theorem addSlidesGo_get? (ok : Nat → Bool) (layouts : List Layout) (images : List (List Nat)) :
    ∀ (outline : List SlideSpec) (idx imgIx att i : Nat) (s : BuiltSlide),
      (addSlidesGo ok layouts images outline idx imgIx att).get? i = some s →
      ∃ sd imgIx2 att2, sd ∈ outline ∧
        s = (buildSlide ok images ((choose_layout layouts (idx + i)).getD emptyFallbackLayout)
              sd imgIx2 att2).1 := by
  intro outline
  induction outline with
  | nil => intro idx imgIx att i s hmem; simp [addSlidesGo] at hmem
  | cons sd rest ih =>
    intro idx imgIx att i s hmem
    cases i with
    | zero =>
      simp only [addSlidesGo, List.get?_cons_zero, Option.some.injEq] at hmem
      exact ⟨sd, imgIx, att, List.mem_cons_self sd rest, by rw [Nat.add_zero]; exact hmem.symm⟩
    | succ n =>
      simp only [addSlidesGo, List.get?_cons_succ] at hmem
      obtain ⟨sd2, imgIx2, att2, hin, heq⟩ := ih (idx + 1) _ _ n s hmem
      refine ⟨sd2, imgIx2, att2, List.mem_cons_of_mem sd hin, ?_⟩
      have harith : idx + 1 + n = idx + (n + 1) := by omega
      rw [harith] at heq
      exact heq

theorem addSlidesGo_pictureIdx (ok : Nat → Bool) (layouts : List Layout)
    (images : List (List Nat)) (h1 : images ≠ []) (h2 : ∀ n, ok n = true) :
    ∀ (outline : List SlideSpec) (idx imgIx att i : Nat) (s : BuiltSlide),
      (addSlidesGo ok layouts images outline idx imgIx att).get? i = some s →
      s.pictureIdx = some ((imgIx + i) % images.length) := by
  intro outline
  induction outline with
  | nil => intro idx imgIx att i s hmem; simp [addSlidesGo] at hmem
  | cons sd rest ih =>
    intro idx imgIx att i s hmem
    cases i with
    | zero =>
      simp only [addSlidesGo, List.get?_cons_zero, Option.some.injEq] at hmem
      rw [← hmem, buildSlide_pictureIdx, Nat.add_zero]
      exact (placePicture_allOk ok images _ imgIx att h1 h2).1
    | succ n =>
      simp only [addSlidesGo, List.get?_cons_succ] at hmem
      have hrec := ih (idx + 1) _ _ n s hmem
      rw [buildSlide_imgOut, (placePicture_allOk ok images _ imgIx att h1 h2).2] at hrec
      have harith : imgIx + 1 + n = imgIx + (n + 1) := by omega
      rw [harith] at hrec
      exact hrec

/-- C3: with a non-empty image pool and every insertion succeeding, the
i-th assembled slide carries the pool image of index i mod pool size, and
the image counter advances exactly when a placement succeeded. -/
theorem C3_round_robin (ok : Nat → Bool) (layouts : List Layout) (images : List (List Nat))
    (outline : List SlideSpec) (slides : List BuiltSlide)
    (h1 : images ≠ []) (h2 : ∀ n, ok n = true)
    (h3 : add_slides_from_outline ok layouts images outline = Except.ok slides) :
    (∀ i s, slides.get? i = some s → s.pictureIdx = some (i % images.length)) ∧
    (∀ ok2 images2 layout imgIx att,
      (placePicture ok2 images2 layout imgIx att).2.1 =
        if ((placePicture ok2 images2 layout imgIx att).1.1).isSome then imgIx + 1 else imgIx) := by
  constructor
  · intro i s hs
    unfold add_slides_from_outline at h3
    by_cases he : layouts.isEmpty
    · rw [if_pos he] at h3
      have hsl : slides = [] := (Except.ok.inj h3).symm
      subst hsl
      simp at hs
    · rw [if_neg he] at h3
      have hsl : slides = addSlidesGo ok layouts images outline 0 0 0 := (Except.ok.inj h3).symm
      subst hsl
      have := addSlidesGo_pictureIdx ok layouts images h1 h2 outline 0 0 0 i s hs
      simpa using this
  · intro ok2 images2 layout imgIx att
    exact placePicture_counter ok2 images2 layout imgIx att

/-- C3 witness: a one-layout template, a two-image pool and three slides;
the third slide (index 2) carries the image of index 2 mod 2 = 0. -/
theorem C3_round_robin_witness :
    c3Images ≠ [] ∧ c3Slides.get? 2 = some c3SlideTwo ∧
    c3SlideTwo.pictureIdx = some (2 % c3Images.length) :=
  ⟨by decide, by decide,
    (C3_round_robin (fun _ => true) c3Layouts c3Images c3Outline c3Slides (by decide)
      (fun _ => rfl) rfl).1 2 c3SlideTwo (by decide)⟩

/-- C4 counterexample: a template containing a layout literally named
"Title and Content" whose non-first slides are nevertheless bound to an
earlier layout, because the idx > 0 scan also accepts any name containing
"title" together with "text". -/
theorem C4_counterexample :
    (∃ l ∈ c4Layouts, l.name = "Title and Content") ∧
    Except.map (fun slides => slides.map (fun s : BuiltSlide => s.layout.name))
        (add_slides_from_outline (fun _ => true) c4Layouts [] c4Outline) =
      Except.ok ["Main Title text", "Main Title text"] ∧
    ("Main Title text" : String) ≠ "Title and Content" := by
  refine ⟨by decide, rfl, by decide⟩

/-- C4 amended: every non-first assembled slide is bound to the first
layout whose lowercased name contains "title" and also "content" or
"text"; the layout literally named "Title and Content" is used exactly
when it is that first match. -/
theorem C4_first_matching_layout (ok : Nat → Bool) (images : List (List Nat))
    (layouts : List Layout) (outline : List SlideSpec) (slides : List BuiltSlide)
    (l : Layout) (hfind : layouts.find? isTitleContentName = some l)
    (h3 : add_slides_from_outline ok layouts images outline = Except.ok slides) :
    ∀ i s, i ≠ 0 → slides.get? i = some s → s.layout = l := by
  intro i s hi hs
  have hne : layouts ≠ [] := by
    intro hnil
    subst hnil
    simp at hfind
  have hlen : ¬ layouts.length = 0 := by
    simpa [List.length_eq_zero] using hne
  unfold add_slides_from_outline at h3
  by_cases he : layouts.isEmpty
  · exact absurd (List.isEmpty_iff.mp he) hne
  · rw [if_neg he] at h3
    have hsl : slides = addSlidesGo ok layouts images outline 0 0 0 := (Except.ok.inj h3).symm
    subst hsl
    obtain ⟨sd, imgIx2, att2, hmem, heq⟩ :=
      addSlidesGo_get? ok layouts images outline 0 0 0 i s hs
    have hcl : choose_layout layouts (0 + i) = some l := by
      unfold choose_layout
      rw [if_neg hlen, if_neg (by omega : ¬ (0 + i = 0)), hfind]
    rw [heq, hcl]
    rfl

/-- C4 witness: in the counterexample template the first matching layout is
the one named "Main Title text", and the second slide is bound to it. -/
theorem C4_first_matching_layout_witness :
    c4Layouts.find? isTitleContentName = some c4First ∧
    c4Slides.get? 1 = some c4BuiltSlide ∧ c4BuiltSlide.layout = c4First :=
  ⟨by decide, by decide,
    C4_first_matching_layout (fun _ => true) [] c4Layouts c4Outline c4Slides c4First
      (by decide) rfl 1 c4BuiltSlide (by decide) (by decide)⟩

/-- C5 counterexample: a slide whose body placeholder is bound gets its
bullet paragraph with no color and no font size applied; in particular the
paragraph does not carry the fixed default color RGB(30,41,59) the claim
requires when no accent color is resolvable (app.py resolves no theme color
and styles no run). -/
theorem C5_counterexample :
    add_slides_from_outline (fun _ => true) [c5Layout] [] c5Outline = Except.ok [c5Built] ∧
    c5Built.body = some [c5Para] ∧
    c5Para.color = none ∧ c5Para.fontSize = none ∧
    (none : Option (Nat × Nat × Nat)) ≠ some (30, 41, 59) := by
  refine ⟨rfl, rfl, rfl, rfl, by decide⟩

/-- C5 amended: every paragraph written for a bullet carries the stripped
bullet text at outline level 0 with no font size and no color applied (the
appearance is whatever the template layout inherits). -/
theorem C5_paragraphs_unstyled (ok : Nat → Bool) (images : List (List Nat))
    (layouts : List Layout) (outline : List SlideSpec) (slides : List BuiltSlide)
    (s : BuiltSlide) (ps : List Paragraph) (p : Paragraph)
    (h3 : add_slides_from_outline ok layouts images outline = Except.ok slides)
    (hs : s ∈ slides) (hb : s.body = some ps) (hp : p ∈ ps) :
    p.level = 0 ∧ p.fontSize = none ∧ p.color = none := by
  unfold add_slides_from_outline at h3
  by_cases he : layouts.isEmpty
  · rw [if_pos he] at h3
    have hsl : slides = [] := (Except.ok.inj h3).symm
    subst hsl
    simp at hs
  · rw [if_neg he] at h3
    have hsl : slides = addSlidesGo ok layouts images outline 0 0 0 := (Except.ok.inj h3).symm
    subst hsl
    obtain ⟨i, hgi⟩ := List.mem_iff_get?.mp hs
    obtain ⟨sd, imgIx2, att2, hmem, heq⟩ :=
      addSlidesGo_get? ok layouts images outline 0 0 0 i s hgi
    rw [heq, buildSlide_body] at hb
    split at hb
    · next ph hph =>
      by_cases htf : ph.hasTextFrame
      · rw [if_pos htf] at hb
        have hps := Option.some.inj hb
        subst hps
        obtain ⟨b, hbm, hbe⟩ := List.mem_map.mp hp
        rw [← hbe]
        exact ⟨rfl, rfl, rfl⟩
      · rw [if_neg htf] at hb
        exact Option.noConfusion hb
    · exact Option.noConfusion hb

/-- C5 witness: the amended statement at the concrete C5 run. -/
theorem C5_paragraphs_unstyled_witness :
    c5Para.level = 0 ∧ c5Para.fontSize = none ∧ c5Para.color = none :=
  C5_paragraphs_unstyled (fun _ => true) [] [c5Layout] c5Outline [c5Built] c5Built [c5Para]
    c5Para rfl (by decide) rfl (by decide)

/-- C6 counterexample: a slide whose chosen layout exposes no body
placeholder gets neither body text nor any synthesized text box, so its
non-empty bullet list is silently dropped, contradicting the claimed
free-floating text box fallback. -/
theorem C6_counterexample :
    add_slides_from_outline (fun _ => true) [c6Layout] [] [demoSpec] = Except.ok [c6Built] ∧
    c6Layout.placeholders.find? (fun p => p.phType = 2) = none ∧
    demoSpec.bullets ≠ [] ∧
    c6Built.textBox = none ∧ c6Built.body = none := by
  refine ⟨rfl, rfl, by decide, rfl, rfl⟩

/-- C6 amended: when the chosen layout exposes no body placeholder the
assembler writes neither a body nor any substitute text box; the bullets of
that slide are silently dropped. -/
theorem C6_no_textbox_bullets_dropped (ok : Nat → Bool) (images : List (List Nat))
    (layouts : List Layout) (outline : List SlideSpec) (slides : List BuiltSlide)
    (s : BuiltSlide)
    (h3 : add_slides_from_outline ok layouts images outline = Except.ok slides)
    (hs : s ∈ slides)
    (hnb : s.layout.placeholders.find? (fun p => p.phType = 2) = none) :
    s.body = none ∧ s.textBox = none := by
  unfold add_slides_from_outline at h3
  by_cases he : layouts.isEmpty
  · rw [if_pos he] at h3
    have hsl : slides = [] := (Except.ok.inj h3).symm
    subst hsl
    simp at hs
  · rw [if_neg he] at h3
    have hsl : slides = addSlidesGo ok layouts images outline 0 0 0 := (Except.ok.inj h3).symm
    subst hsl
    obtain ⟨i, hgi⟩ := List.mem_iff_get?.mp hs
    obtain ⟨sd, imgIx2, att2, hmem, heq⟩ :=
      addSlidesGo_get? ok layouts images outline 0 0 0 i s hgi
    rw [heq, buildSlide_layout] at hnb
    rw [heq, buildSlide_body, buildSlide_textBox, hnb]
    exact ⟨rfl, rfl⟩

/-- C6 witness: the amended statement at the concrete C6 run. -/
theorem C6_no_textbox_bullets_dropped_witness :
    c6Built.body = none ∧ c6Built.textBox = none :=
  C6_no_textbox_bullets_dropped (fun _ => true) [] [c6Layout] [demoSpec] [c6Built] c6Built
    rfl (by decide) rfl

/-- C8 counterexample: with a template containing no layouts the assembler
returns successfully with no appended slides and reports no failure of any
kind, contradicting the claimed AssemblyFailure report. -/
theorem C8_counterexample :
    add_slides_from_outline (fun _ => true) [] [[1]] [demoSpec] = Except.ok [] ∧
    ¬ ∃ e : String, add_slides_from_outline (fun _ => true) [] [[1]] [demoSpec] =
      Except.error e := by
  refine ⟨rfl, ?_⟩
  rintro ⟨e, he⟩
  rw [show add_slides_from_outline (fun _ => true) [] [[1]] [demoSpec] = Except.ok []
    from rfl] at he
  exact Except.noConfusion he

/-- C8 amended: with no layouts the assembler silently appends nothing and
reports nothing; with at least one layout it proceeds, binding every
appended slide to one of the available layouts. -/
theorem C8_silent_empty_layouts (ok : Nat → Bool) (images : List (List Nat))
    (layouts : List Layout) (outline : List SlideSpec) (slides : List BuiltSlide)
    (hne : layouts ≠ [])
    (h3 : add_slides_from_outline ok layouts images outline = Except.ok slides) :
    (∀ ok2 images2 outline2,
      add_slides_from_outline ok2 ([] : List Layout) images2 outline2 = Except.ok []) ∧
    ∀ s ∈ slides, s.layout ∈ layouts := by
  constructor
  · intro ok2 images2 outline2
    rfl
  · intro s hs
    unfold add_slides_from_outline at h3
    by_cases he : layouts.isEmpty
    · exact absurd (List.isEmpty_iff.mp he) hne
    · rw [if_neg he] at h3
      have hsl : slides = addSlidesGo ok layouts images outline 0 0 0 := (Except.ok.inj h3).symm
      subst hsl
      obtain ⟨i, hgi⟩ := List.mem_iff_get?.mp hs
      obtain ⟨sd, imgIx2, att2, hmem, heq⟩ :=
        addSlidesGo_get? ok layouts images outline 0 0 0 i s hgi
      obtain ⟨l, hl, hcl⟩ := choose_layout_mem layouts (0 + i) hne
      rw [heq, buildSlide_layout, hcl]
      exact hl

/-- C8 witness: the amended statement at a concrete one-layout run. -/
theorem C8_silent_empty_layouts_witness :
    add_slides_from_outline (fun _ => true) ([] : List Layout) [] [] = Except.ok [] ∧
    c6Built.layout ∈ [c6Layout] :=
  ⟨(C8_silent_empty_layouts (fun _ => true) [] [c6Layout] [demoSpec] [c6Built]
      (by decide) rfl).1 (fun _ => true) [] [],
   (C8_silent_empty_layouts (fun _ => true) [] [c6Layout] [demoSpec] [c6Built]
      (by decide) rfl).2 c6Built (by decide)⟩

theorem filterMap_blob_sublist :
    ∀ rels : List PPart, List.Sublist (rels.filterMap PPart.blob) (harvestImagesList rels) := by
  intro rels
  induction rels with
  | nil => simp [harvestImagesList]
  | cons t rest ih =>
    cases hb : PPart.blob t with
    | none =>
      simp only [List.filterMap_cons, hb, harvestImagesList]
      exact ih.trans (List.sublist_append_right ([] ++ harvestImagesDeep t) _)
    | some b =>
      simp only [List.filterMap_cons, hb, harvestImagesList]
      rw [List.append_assoc]
      exact List.Sublist.append (List.Sublist.refl [b])
        (ih.trans (List.sublist_append_right _ _))

/-- C9 counterexample: an image blob reachable only through a nested part is
missed by extract_images_from_presentation, which walks only the direct
relationships of the presentation part; the spec-modelled full graph walk
finds it. -/
theorem C9_counterexample :
    extract_images_from_presentation c9Root = [] ∧
    harvestImagesDeep c9Root = [[1, 2, 3]] ∧
    [1, 2, 3] ∈ harvestImagesDeep c9Root ∧
    [1, 2, 3] ∉ extract_images_from_presentation c9Root := by
  refine ⟨rfl, rfl, by decide, by decide⟩

/-- C9 amended: harvesting collects, in relationship order, exactly the
blobs of the presentation part's direct relationship targets — a
subsequence of the full nested walk the spec describes — and it never
fails (it is a total function into lists). -/
theorem C9_direct_targets_only (root : PPart) :
    List.Sublist (extract_images_from_presentation root) (harvestImagesDeep root) ∧
    ∀ b ∈ extract_images_from_presentation root, ∃ t ∈ root.rels, PPart.blob t = some b := by
  constructor
  · cases root with
    | mk blob rels => exact filterMap_blob_sublist rels
  · intro b hb
    exact List.mem_filterMap.mp hb

/-- C10: choose_layout returns a member of any non-empty layout list at
every index; on the empty list it fails (the guard indexes the empty list,
an IndexError, modelled as none); add_slides_from_outline protects itself
by returning with nothing appended when there are no layouts. -/
theorem C10_choose_layout_safety (layouts : List Layout) (idx : Nat) (h : layouts ≠ []) :
    (∃ l ∈ layouts, choose_layout layouts idx = some l) ∧
    (∀ j, choose_layout ([] : List Layout) j = none) ∧
    (∀ ok images outline,
      add_slides_from_outline ok ([] : List Layout) images outline = Except.ok []) := by
  exact ⟨choose_layout_mem layouts idx h, fun j => rfl, fun ok images outline => rfl⟩

/-- C10 witness: the safety statement at a concrete singleton layout list
and index. -/
theorem C10_choose_layout_safety_witness :
    choose_layout [c3Layout] 5 = some c3Layout ∧
    choose_layout ([] : List Layout) 7 = none ∧
    add_slides_from_outline (fun _ => true) ([] : List Layout) [] [] = Except.ok [] := by
  have h := C10_choose_layout_safety [c3Layout] 5 (by decide)
  refine ⟨?_, h.2.1 7, h.2.2 (fun _ => true) [] []⟩
  obtain ⟨l, hl, he⟩ := h.1
  rw [List.mem_singleton.mp hl] at he
  exact he

/-- C9 witness: at a package with one directly related image part, the
collected blob comes from a direct relationship target and the collection
is a subsequence of the full graph walk. -/
theorem C9_direct_targets_only_witness :
    List.Sublist (extract_images_from_presentation c9Direct) (harvestImagesDeep c9Direct) ∧
    ∃ t ∈ c9Direct.rels, PPart.blob t = some [5] :=
  ⟨(C9_direct_targets_only c9Direct).1,
   (C9_direct_targets_only c9Direct).2 [5] (by decide)⟩
